import Mathlib

/-!
Verification of the `print_ip` demonstration program (`source/print_ip.cpp`).

The program is a set of overloads of `print_ip`, selected at compile time:
an integral overload (bytes of the value, dot separated), a `std::string`
overload (verbatim), a container overload (`std::vector`/`std::list`),
and a tuple overload guarded by a `static_assert` on the type-level trait
`is_same_type`.

Each overload writes to `std::cout` and terminates the line with
`std::endl`.  We model the text an overload writes for a value — the
"format" of the spec — as a pure `String` (the line content, without the
terminating newline), translated statement by statement from the source,
and additionally model the output stream as an explicit buffer that each
`operator<<` appends to (`run_` functions below, which include the
newline of `std::endl`).
-/

/-- Model of `static_cast<std::make_unsigned_t<T>>(value)` for a type of
`w` bytes: two's-complement reinterpretation, i.e. reduction modulo
`2^(8*w)`. -/
def toUnsigned (w : Nat) (v : Int) : Nat :=
  (v % ((2 : Int) ^ (8 * w))).toNat

/-- The byte loop of the integral overload of `print_ip`:
`for (size_t i = size_T-1; i > 0; i--)` prints
`static_cast<uint8_t>(u_value >> 0 >> 8*i)` (as a `uint16_t`, i.e. as a
decimal number) followed by `"."`.  `print_bytes_loop u i` is the text the
loop emits when started at index `i`. -/
def print_bytes_loop (u_value : Nat) : Nat → String
  | 0 => ""
  | i + 1 =>
    (toString ((u_value >>> 0 >>> (8 * (i + 1))) % 256) ++ ".")
      ++ print_bytes_loop u_value i

/-- The integral overload of `print_ip` (line content, without the final
`std::endl`), for a type of `w = sizeof(T)` bytes and input `value`.
If `sizeof(T) == 1` it prints `static_cast<uint16_t>(u_value)`; otherwise
it runs the byte loop from `sizeof(T)-1` down to `1` and then prints the
low byte `static_cast<uint8_t>(u_value)`. -/
def print_ip_integral (w : Nat) (value : Int) : String :=
  let u_value := toUnsigned w value
  if w = 1 then
    toString (u_value % 65536)
  else
    print_bytes_loop u_value (w - 1) ++ toString (u_value % 256)

/-- The `std::string` overload of `print_ip`: `std::cout << value`. -/
def print_ip_string (value : String) : String :=
  value

/-- Dot-joining, in the words of the spec: "join the groups with `.`". -/
def joinDot : List String → String
  | [] => ""
  | [x] => x
  | x :: xs => x ++ "." ++ joinDot xs

/-- Specification-side definition, following the spec's words only (to be
compared with `print_ip_integral`): "reinterpret the bit pattern as
unsigned of the same width; split into 8-bit groups from most-significant
to least-significant byte; render each group as its decimal unsigned
value (0–255); join groups with `.`". -/
def spec_format_int (w : Nat) (v : Int) : String :=
  joinDot (((List.range w).reverse).map
    (fun i => toString ((toUnsigned w v >>> (8 * i)) % 256)))

/-- The body of the loop of the container overload of `print_ip`, run to
completion: the loop bound is `back_it = container.end()--`, a
post-decrement of the temporary returned by `end()`, so `back_it` equals
`container.end()` and the loop `for (it = begin(); it != back_it; it++)`
visits every element, printing `*it` followed by `"."`. -/
def container_loop {α : Type} (render : α → String) : List α → String
  | [] => ""
  | x :: xs => (render x ++ ".") ++ container_loop render xs

/-- The container overload of `print_ip` (line content, without the final
`std::endl`) for `std::vector`/`std::list`, the element sequence modelled
as a `List` and `operator<<` on an element as `render`.  After the loop
the code prints `container.back()`; on an empty container `back()`
dereferences past the end — undefined behavior, modelled as
`Except.error`. -/
def print_ip_container {α : Type} (render : α → String) (container : List α) :
    Except String String :=
  let loop_out := container_loop render container
  match container.getLast? with
  | some b => Except.ok (loop_out ++ render b)
  | none => Except.error "container.back() on empty container"

/-- One index step of the fold expression in `print_tuple`:
`((cout << (index == 0 ? "" : ".") << get<index>(t)), ...)` emits, for
each index in order, `"."` unless the index is `0`, then the element at
that index.  A homogeneous tuple of arity `n` is modelled as the `List`
of its `n` elements (in index order) with `operator<<` on an element as
`render`; `index` is the current index of the sequence `0..n-1`. -/
def print_tuple_fold {α : Type} (render : α → String) (index : Nat) :
    List α → String
  | [] => ""
  | x :: xs =>
    ((if index = 0 then "" else ".") ++ render x)
      ++ print_tuple_fold render (index + 1) xs

/-- The helper `print_tuple(t, index_sequence<index...>)` (line content,
without the final `std::endl`): the fold expression run over the index
sequence `0..n-1`. -/
def print_tuple {α : Type} (render : α → String) (t : List α) : String :=
  print_tuple_fold render 0 t

/-- The tuple overload of `print_ip` (line content, without the final
`std::endl`).  Its `static_assert(is_same_type<Tuple>::value, ...)` is a
type-level guard, modelled separately by `is_same_type` below; a
homogeneous tuple that passes it is a `List α`. -/
def print_ip_tuple {α : Type} (render : α → String) (value : List α) : String :=
  print_tuple render value

/-- The type-level trait `is_same_type`, on the list of element types of
the tuple (types compared by equality, hence `DecidableEq`).  The primary
template is declared but never defined, so no specialization covers the
empty list: instantiating it there uses an incomplete type — a build
error, modelled as `none`.  `is_same_type<tuple<Type>>` is `true_type`;
`is_same_type<tuple<Type, Type, Types...>>` recurses on
`tuple<Type, Types...>`; `is_same_type<tuple<Type, EnotherType, Types...>>`
with two distinct head types is `false_type`. -/
def is_same_type {τ : Type} [DecidableEq τ] : List τ → Option Bool
  | [] => none
  | [_] => some true
  | t :: u :: rest => if t = u then is_same_type (t :: rest) else some false

/-- The C++ types relevant to overload resolution of `print_ip`:
the integral types (accepted by the `std::is_integral` constraint of the
integral overload) and, for contrast, some non-integral ones. -/
inductive CppType : Type
  | bool_t | char_t | schar_t | uchar_t
  | short_t | ushort_t | int_t | uint_t
  | long_t | ulong_t | longlong_t | ulonglong_t
  | float_t | double_t | string_t
deriving DecidableEq

/-- `std::is_integral<T>::value`: true for `bool`, character types and all
signed and unsigned integer types, false for floating-point types and
class types such as `std::string`. -/
def is_integral : CppType → Bool
  | CppType.float_t => false
  | CppType.double_t => false
  | CppType.string_t => false
  | _ => true

/-- `sizeof(T)` on the modelled platform (LP64, as in the repository's CI). -/
def sizeofCpp : CppType → Nat
  | CppType.bool_t => 1
  | CppType.char_t => 1
  | CppType.schar_t => 1
  | CppType.uchar_t => 1
  | CppType.short_t => 2
  | CppType.ushort_t => 2
  | CppType.int_t => 4
  | CppType.uint_t => 4
  | CppType.long_t => 8
  | CppType.ulong_t => 8
  | CppType.longlong_t => 8
  | CppType.ulonglong_t => 8
  | CppType.float_t => 4
  | CppType.double_t => 8
  | CppType.string_t => 32

/-- `std::make_unsigned<T>`: defined for the integral types other than
`bool`, mapping each to the unsigned type of the same width.  The `bool`
specialization is declared but deliberately left undefined by the
standard library ("Integral, but don't define." in libstdc++), and the
trait is not defined for non-integral types at all — both are build
errors at instantiation, modelled as `none`. -/
def make_unsigned : CppType → Option CppType
  | CppType.char_t => some CppType.uchar_t
  | CppType.schar_t => some CppType.uchar_t
  | CppType.uchar_t => some CppType.uchar_t
  | CppType.short_t => some CppType.ushort_t
  | CppType.ushort_t => some CppType.ushort_t
  | CppType.int_t => some CppType.uint_t
  | CppType.uint_t => some CppType.uint_t
  | CppType.long_t => some CppType.ulong_t
  | CppType.ulong_t => some CppType.ulong_t
  | CppType.longlong_t => some CppType.ulonglong_t
  | CppType.ulonglong_t => some CppType.ulonglong_t
  | _ => none

/-- The integral overload of `print_ip` instantiated at an integral type
`t`: the body begins `using uT = std::make_unsigned_t<T>;`, so the
instantiation builds only when `make_unsigned` is defined at `T` —
`none`, a build error, otherwise (notably at `bool`).  When it builds,
the byte grouping is driven by `sizeof(T)` and the value goes through
`static_cast<uT>`. -/
def print_ip_typed (t : CppType) (value : Int) : Option String :=
  (make_unsigned t).map (fun _ => print_ip_integral (sizeofCpp t) value)


/-- The byte loop of the integral overload in the output-stream model:
`buf` is the text already on `std::cout`, and every `operator<<` appends
to it. -/
def run_bytes_loop (u_value : Nat) (buf : String) : Nat → String
  | 0 => buf
  | i + 1 =>
    run_bytes_loop u_value
      (buf ++ toString ((u_value >>> 0 >>> (8 * (i + 1))) % 256) ++ ".") i

/-- The integral overload of `print_ip` in the output-stream model,
including the `std::endl`. -/
def run_print_ip_integral (w : Nat) (value : Int) (buf : String) : String :=
  let u_value := toUnsigned w value
  if w = 1 then
    buf ++ toString (u_value % 65536) ++ "\n"
  else
    run_bytes_loop u_value buf (w - 1) ++ toString (u_value % 256) ++ "\n"

/-- The `std::string` overload of `print_ip` in the output-stream model. -/
def run_print_ip_string (value : String) (buf : String) : String :=
  buf ++ value ++ "\n"

/-- The loop of the container overload in the output-stream model. -/
def run_container_loop {α : Type} (render : α → String) (buf : String) :
    List α → String
  | [] => buf
  | x :: xs => run_container_loop render (buf ++ render x ++ ".") xs

/-- The container overload of `print_ip` in the output-stream model,
including the `std::endl`; `container.back()` on an empty container is
undefined behavior, modelled as `Except.error`. -/
def run_print_ip_container {α : Type} (render : α → String)
    (container : List α) (buf : String) : Except String String :=
  match container.getLast? with
  | some b =>
    Except.ok (run_container_loop render buf container ++ render b ++ "\n")
  | none => Except.error "container.back() on empty container"

/-- The fold expression of `print_tuple` in the output-stream model. -/
def run_tuple_fold {α : Type} (render : α → String) (index : Nat)
    (buf : String) : List α → String
  | [] => buf
  | x :: xs =>
    run_tuple_fold render (index + 1)
      (buf ++ (if index = 0 then "" else ".") ++ render x) xs

/-- The tuple overload of `print_ip` in the output-stream model,
including the `std::endl`. -/
def run_print_ip_tuple {α : Type} (render : α → String) (value : List α)
    (buf : String) : String :=
  run_tuple_fold render 0 buf value ++ "\n"

/-! ### Helper lemmas -/

lemma toUnsigned_lt (w : Nat) (v : Int) : toUnsigned w v < 2 ^ (8 * w) := by
  unfold toUnsigned
  have hpos : (0 : Int) < (2 : Int) ^ (8 * w) := by positivity
  have h1 : v % (2 : Int) ^ (8 * w) < (2 : Int) ^ (8 * w) :=
    Int.emod_lt_of_pos v hpos
  have h2 : (0 : Int) ≤ v % (2 : Int) ^ (8 * w) :=
    Int.emod_nonneg v (ne_of_gt hpos)
  have h3 : ((2 ^ (8 * w) : Nat) : Int) = (2 : Int) ^ (8 * w) := by
    push_cast
    ring
  omega

lemma joinDot_cons (x : String) (l : List String) (h : l ≠ []) :
    joinDot (x :: l) = x ++ "." ++ joinDot l := by
  cases l with
  | nil => exact absurd rfl h
  | cons y ys => rfl

lemma print_bytes_loop_append (u : Nat) :
    ∀ i : Nat,
      print_bytes_loop u i ++ toString (u % 256)
        = joinDot (((List.range (i + 1)).reverse).map
            (fun j => toString ((u >>> (8 * j)) % 256))) := by
  intro i
  induction i with
  | zero =>
    simp [print_bytes_loop, joinDot, List.range_succ, Nat.shiftRight_zero]
  | succ i ih =>
    have hrange : (List.range (i + 1 + 1)).reverse
        = (i + 1) :: (List.range (i + 1)).reverse := by
      simp [List.range_succ]
    have hne : (((List.range (i + 1)).reverse).map
        (fun j => toString ((u >>> (8 * j)) % 256))) ≠ [] := by
      simp [List.range_succ]
    rw [hrange, List.map_cons, joinDot_cons _ _ hne, ← ih]
    simp [print_bytes_loop, Nat.shiftRight_zero, String.append_assoc]

lemma print_ip_integral_eq_spec (w : Nat) (v : Int) (hw : 1 ≤ w) :
    print_ip_integral w v = spec_format_int w v := by
  by_cases h1 : w = 1
  · subst h1
    have hu : toUnsigned 1 v < 256 := by
      have := toUnsigned_lt 1 v
      norm_num at this
      exact this
    have h2 : toUnsigned 1 v % 65536 = toUnsigned 1 v :=
      Nat.mod_eq_of_lt (by omega)
    have h3 : toUnsigned 1 v % 256 = toUnsigned 1 v := Nat.mod_eq_of_lt hu
    simp [print_ip_integral, spec_format_int, joinDot, List.range_succ,
      Nat.shiftRight_zero, h2, h3]
  · have h2 : w - 1 + 1 = w := by omega
    simp only [print_ip_integral, if_neg h1]
    rw [print_bytes_loop_append, h2]
    rfl

lemma print_ip_integral_one (v : Int) :
    print_ip_integral 1 v = Nat.repr (toUnsigned 1 v) := by
  have hu : toUnsigned 1 v < 256 := by
    have := toUnsigned_lt 1 v
    norm_num at this
    exact this
  simp [print_ip_integral,
    Nat.mod_eq_of_lt (show toUnsigned 1 v < 65536 by omega)]
  rfl

lemma container_loop_append {α : Type} (render : α → String) :
    ∀ (l : List α) (s : String),
      container_loop render l ++ s = joinDot (l.map render ++ [s]) := by
  intro l
  induction l with
  | nil => intro s; simp [container_loop, joinDot]
  | cons x xs ih =>
    intro s
    have hne : xs.map render ++ [s] ≠ [] := by simp
    rw [List.map_cons, List.cons_append, joinDot_cons _ _ hne, ← ih s]
    simp [container_loop, String.append_assoc]

lemma print_tuple_fold_pos {α : Type} (render : α → String) :
    ∀ (xs : List α) (k : Nat), xs ≠ [] → 1 ≤ k →
      print_tuple_fold render k xs = "." ++ joinDot (xs.map render) := by
  intro xs
  induction xs with
  | nil => intro k h _; exact absurd rfl h
  | cons y ys ih =>
    intro k _ hk
    have hkne : ¬ k = 0 := by omega
    by_cases hys : ys = []
    · subst hys
      simp [print_tuple_fold, joinDot, if_neg hkne]
    · have hne : ys.map render ≠ [] := by
        simpa using hys
      rw [List.map_cons, joinDot_cons _ _ hne]
      simp only [print_tuple_fold, if_neg hkne]
      rw [ih (k + 1) hys (by omega)]
      simp [String.append_assoc]

lemma print_tuple_eq_joinDot {α : Type} (render : α → String) (t : List α) :
    print_tuple render t = joinDot (t.map render) := by
  cases t with
  | nil => rfl
  | cons x xs =>
    by_cases hxs : xs = []
    · subst hxs
      simp [print_tuple, print_tuple_fold, joinDot]
    · have hne : xs.map render ≠ [] := by simpa using hxs
      simp only [print_tuple, print_tuple_fold, if_pos rfl]
      rw [print_tuple_fold_pos render xs 1 hxs (by omega)]
      rw [List.map_cons, joinDot_cons _ _ hne]
      simp [String.append_assoc]

lemma is_same_type_of_ne {τ : Type} [DecidableEq τ] :
    ∀ (l : List τ), (∃ a ∈ l, ∃ b ∈ l, a ≠ b) → is_same_type l = some false := by
  intro l
  induction l using is_same_type.induct with
  | case1 =>
    rintro ⟨a, ha, _⟩
    simp at ha
  | case2 x =>
    rintro ⟨a, ha, b, hb, hab⟩
    simp at ha hb
    subst ha
    subst hb
    exact absurd rfl hab
  | case3 u rest ih =>
    rintro ⟨a, ha, b, hb, hab⟩
    simp only [is_same_type, if_pos rfl]
    apply ih
    refine ⟨a, ?_, b, ?_, hab⟩
    · rcases List.mem_cons.mp ha with h | h
      · exact h ▸ List.mem_cons_self u rest
      · exact h
    · rcases List.mem_cons.mp hb with h | h
      · exact h ▸ List.mem_cons_self u rest
      · exact h
  | case4 t u rest hne =>
    intro _
    simp [is_same_type, if_neg hne]

lemma is_same_type_ne_none {τ : Type} [DecidableEq τ] :
    ∀ (l : List τ), l ≠ [] → is_same_type l ≠ none := by
  intro l
  induction l using is_same_type.induct with
  | case1 => intro h; exact absurd rfl h
  | case2 x => intro _; simp [is_same_type]
  | case3 u rest ih =>
    intro _
    simp only [is_same_type, if_pos rfl]
    exact ih (by simp)
  | case4 t u rest hne =>
    intro _
    simp [is_same_type, if_neg hne]

lemma is_same_type_none_iff {τ : Type} [DecidableEq τ] (l : List τ) :
    is_same_type l = none ↔ l = [] := by
  constructor
  · intro h
    by_contra hne
    exact is_same_type_ne_none l hne h
  · rintro rfl
    simp [is_same_type]

lemma run_bytes_loop_eq (u : Nat) :
    ∀ (i : Nat) (buf : String),
      run_bytes_loop u buf i = buf ++ print_bytes_loop u i := by
  intro i
  induction i with
  | zero => intro buf; simp [run_bytes_loop, print_bytes_loop]
  | succ i ih =>
    intro buf
    simp only [run_bytes_loop, print_bytes_loop]
    rw [ih]
    simp [String.append_assoc]

lemma run_container_loop_eq {α : Type} (render : α → String) :
    ∀ (l : List α) (buf : String),
      run_container_loop render buf l = buf ++ container_loop render l := by
  intro l
  induction l with
  | nil => intro buf; simp [run_container_loop, container_loop]
  | cons x xs ih =>
    intro buf
    simp only [run_container_loop, container_loop]
    rw [ih]
    simp [String.append_assoc]

lemma run_tuple_fold_eq {α : Type} (render : α → String) :
    ∀ (t : List α) (k : Nat) (buf : String),
      run_tuple_fold render k buf t = buf ++ print_tuple_fold render k t := by
  intro t
  induction t with
  | nil => intro k buf; simp [run_tuple_fold, print_tuple_fold]
  | cons x xs ih =>
    intro k buf
    simp only [run_tuple_fold, print_tuple_fold]
    rw [ih]
    simp [String.append_assoc]

/-! ### Claims -/

/-- Claim C1: for every signed integer of width 2, 4, or 8 bytes, the
integral overload of `print_ip` reinterprets the bit pattern as unsigned
of the same width, splits it into 8-bit groups from most-significant to
least-significant byte, renders each group as its decimal unsigned value
and joins the groups with `"."` (the spec-side `spec_format_int`); for
every width-1 signed integer the result is the single decimal unsigned
value with no separator; in particular the `int8_t{-1}`, `int16_t{0}` and
`int32_t{2130706433}` examples. -/
theorem claim_C1 :
    (∀ (w : Nat) (v : Int), w = 2 ∨ w = 4 ∨ w = 8 →
        print_ip_integral w v = spec_format_int w v)
    ∧ (∀ v : Int, print_ip_integral 1 v = toString (toUnsigned 1 v))
    ∧ print_ip_integral 1 (-1) = "255"
    ∧ print_ip_integral 2 0 = "0.0"
    ∧ print_ip_integral 4 2130706433 = "127.0.0.1" := by
  refine ⟨?_, ?_, by decide, by decide, by decide⟩
  · rintro w v (rfl | rfl | rfl) <;>
      exact print_ip_integral_eq_spec _ v (by omega)
  · intro v
    have hu : toUnsigned 1 v < 256 := by
      have := toUnsigned_lt 1 v
      norm_num at this
      exact this
    simp [print_ip_integral,
      Nat.mod_eq_of_lt (show toUnsigned 1 v < 65536 by omega)]

/-- Witness for C1, at width 4 and the value of the `127.0.0.1` example. -/
theorem claim_C1_witness :
    print_ip_integral 4 2130706433 = spec_format_int 4 2130706433 :=
  claim_C1.1 4 2130706433 (Or.inr (Or.inl rfl))

/-- Claim C2, evaluated at the failing input: on the sequence
`[100, 200, 300, 400]` the container overload of `print_ip` produces
`"100.200.300.400.400"` — the last element repeated — not the
`"100.200.300.400"` the claim states. -/
theorem claim_C2_eval :
    print_ip_container toString [(100 : Int), 200, 300, 400]
      = Except.ok "100.200.300.400.400"
    ∧ "100.200.300.400.400" ≠ "100.200.300.400" :=
  ⟨rfl, by decide⟩

/-- Claim C3: for every non-empty sequence, the container overload of
`print_ip` emits the dot-join of `n + 1` components: every element in
order and then one extra copy of the last element (the loop bound
`container.end()--` post-decrements a temporary, so the loop runs to
`end()` and `back()` is printed again). -/
theorem claim_C3 :
    ∀ (α : Type) (render : α → String) (l : List α) (h : l ≠ []),
      print_ip_container render l
        = Except.ok (joinDot (l.map render ++ [render (l.getLast h)]))
      ∧ (l.map render ++ [render (l.getLast h)]).length = l.length + 1 := by
  intro α render l h
  refine ⟨?_, by simp⟩
  simp only [print_ip_container, List.getLast?_eq_getLast l h]
  rw [container_loop_append]

/-- Witness for C3, on the two-element sequence `[1, 2]`. -/
theorem claim_C3_witness :
    print_ip_container toString [(1 : Int), 2]
      = Except.ok (joinDot ([(1 : Int), 2].map toString
          ++ [toString ([(1 : Int), 2].getLast (by simp))]))
    ∧ (([(1 : Int), 2].map toString)
          ++ [toString ([(1 : Int), 2].getLast (by simp))]).length
        = [(1 : Int), 2].length + 1 :=
  claim_C3 Int toString [(1 : Int), 2] (by simp)

/-- Claim C4, evaluated at the failing input: on an empty sequence the
container overload of `print_ip` does not raise any `EmptyInputError` —
it reaches `container.back()` on an empty container, an out-of-bounds
access (undefined behavior), modelled as this `Except.error`. -/
theorem claim_C4_eval :
    print_ip_container toString ([] : List Int)
      = Except.error "container.back() on empty container" :=
  rfl

/-- Claim C5: for every (non-empty, homogeneous) tuple the tuple overload
of `print_ip` renders each element in declared order joined by `"."`; in
particular `print_ip(make_tuple(123, 456, 789, 0))` gives
`"123.456.789.0"`. -/
theorem claim_C5 :
    (∀ (α : Type) (render : α → String) (t : List α), t ≠ [] →
        print_ip_tuple render t = joinDot (t.map render))
    ∧ print_ip_tuple toString [(123 : Int), 456, 789, 0] = "123.456.789.0" := by
  refine ⟨?_, by decide⟩
  intro α render t _
  exact print_tuple_eq_joinDot render t

/-- Witness for C5, on the tuple of the repository's example. -/
theorem claim_C5_witness :
    print_ip_tuple toString [(123 : Int), 456, 789, 0]
      = joinDot ([(123 : Int), 456, 789, 0].map toString) :=
  claim_C5.1 Int toString [(123 : Int), 456, 789, 0] (by simp)

/-- Claim C6: for every tuple whose element types are not all identical,
the trait `is_same_type` evaluates to `false_type`, so the
`static_assert(is_same_type<Tuple>::value, "Tuple has different types")`
in the tuple overload fires and the call is rejected at build time, never
executing at runtime. -/
theorem claim_C6 :
    ∀ (τ : Type) [DecidableEq τ] (l : List τ),
      (∃ a ∈ l, ∃ b ∈ l, a ≠ b) → is_same_type l = some false := by
  intro τ _ l h
  exact is_same_type_of_ne l h

/-- Witness for C6, on the two-type list `[0, 1]`. -/
theorem claim_C6_witness : is_same_type [(0 : Nat), 1] = some false :=
  claim_C6 Nat [(0 : Nat), 1] ⟨0, by simp, 1, by simp, by omega⟩

/-- Claim C7: the string overload of `print_ip` is the identity on
strings — the value is rendered verbatim, both as line content and in the
output-stream model; in particular on `"Hello, World!"`. -/
theorem claim_C7 :
    (∀ s : String, print_ip_string s = s)
    ∧ (∀ s buf : String,
        run_print_ip_string s buf = buf ++ print_ip_string s ++ "\n")
    ∧ print_ip_string "Hello, World!" = "Hello, World!" :=
  ⟨fun _ => rfl, fun _ _ => rfl, rfl⟩

/-- Claim C8: the zero-element tuple is the one and only arity at which
`is_same_type` has no covering specialization (the declared-but-undefined
primary template, an incomplete type — a build failure, modelled as
`none`), even though homogeneity is vacuously satisfied on it. -/
theorem claim_C8 :
    (∀ (τ : Type) [DecidableEq τ] (l : List τ),
        is_same_type l = none ↔ l = [])
    ∧ is_same_type ([] : List Nat) = none
    ∧ (∀ a ∈ ([] : List Nat), ∀ b ∈ ([] : List Nat), a = b) := by
  refine ⟨?_, ?_, by simp⟩
  · intro τ _ l
    exact is_same_type_none_iff l
  · simp [is_same_type]

/-- Witness for C8, at the one-element list `[5]`. -/
theorem claim_C8_witness :
    (is_same_type [(5 : Nat)] = none ↔ [(5 : Nat)] = ([] : List Nat)) :=
  claim_C8.1 Nat [(5 : Nat)]

/-- Claim C9, refuted at `bool`: `bool` does satisfy the
`std::is_integral` constraint, so the integral overload is selected, but
the overload's body uses `std::make_unsigned_t<bool>` — a
declared-but-undefined specialization — so instantiating it at `bool` is
a build error, and a `bool` input renders nothing at all, rather than
rendering as a decimal number as the claim states. -/
theorem claim_C9_counterexample :
    is_integral CppType.bool_t = true
    ∧ make_unsigned CppType.bool_t = none
    ∧ print_ip_typed CppType.bool_t 1 = none
    ∧ print_ip_typed CppType.bool_t 1 ≠ some "1" :=
  ⟨rfl, rfl, rfl, by decide⟩

/-- Claim C9 as amended: the integral overload's `std::is_integral`
constraint accepts every integral type — unsigned integers, `bool` and
character types included, floating-point and class types excluded — and
for every integral type other than `bool` the byte grouping is
`sizeof(T)` and a width-1 value is printed as the decimal number
`static_cast<uint16_t>` of its unsigned value, so `char` inputs render
as decimal numbers, not characters; a `bool` input, however, fails to
build (undefined `std::make_unsigned<bool>`) and never renders. -/
theorem claim_C9_amended :
    (is_integral CppType.bool_t = true ∧ is_integral CppType.char_t = true
      ∧ is_integral CppType.uchar_t = true
      ∧ is_integral CppType.ushort_t = true
      ∧ is_integral CppType.uint_t = true
      ∧ is_integral CppType.ulonglong_t = true
      ∧ is_integral CppType.float_t = false
      ∧ is_integral CppType.string_t = false)
    ∧ (∀ (t : CppType) (v : Int), is_integral t = true →
        t ≠ CppType.bool_t →
        print_ip_typed t v = some (spec_format_int (sizeofCpp t) v))
    ∧ (∀ (t : CppType) (v : Int), sizeofCpp t = 1 → t ≠ CppType.bool_t →
        print_ip_typed t v = some (Nat.repr (toUnsigned 1 v)))
    ∧ (∀ v : Int, print_ip_typed CppType.bool_t v = none)
    ∧ print_ip_typed CppType.char_t 65 = some "65"
    ∧ print_ip_typed CppType.char_t 65 ≠ some "A" := by
  refine ⟨by decide, ?_, ?_, fun _ => rfl, by decide, by decide⟩
  · intro t v hint hne
    cases t <;> first
      | exact absurd rfl hne
      | exact absurd hint (by decide)
      | exact congrArg some (print_ip_integral_eq_spec _ v (by decide))
  · intro t v h hne
    cases t <;> first
      | exact absurd rfl hne
      | exact absurd h (by decide)
      | exact congrArg some (print_ip_integral_one v)

/-- Witness for the amended C9: an unsigned 4-byte value grouped by
`sizeof`, and a width-1 `unsigned char` printed as a decimal number. -/
theorem claim_C9_amended_witness :
    print_ip_typed CppType.uint_t 4294967295
        = some (spec_format_int (sizeofCpp CppType.uint_t) 4294967295)
    ∧ print_ip_typed CppType.uchar_t 200 = some (Nat.repr (toUnsigned 1 200)) :=
  ⟨claim_C9_amended.2.1 CppType.uint_t 4294967295 rfl (by decide),
   claim_C9_amended.2.2.1 CppType.uchar_t 200 rfl (by decide)⟩

/-- Claim C10: every overload of `print_ip` is deterministic and free of
side effects other than its output: in the output-stream model, the
buffer after a call is the prior buffer with a pure function of the input
value appended (the line content and the newline of `std::endl`) — the
prior stream state is never read and no other state exists. -/
theorem claim_C10 :
    (∀ (w : Nat) (v : Int) (buf : String),
        run_print_ip_integral w v buf = buf ++ print_ip_integral w v ++ "\n")
    ∧ (∀ s buf : String,
        run_print_ip_string s buf = buf ++ print_ip_string s ++ "\n")
    ∧ (∀ (α : Type) (render : α → String) (l : List α) (buf : String),
        run_print_ip_container render l buf
          = (print_ip_container render l).map (fun out => buf ++ out ++ "\n"))
    ∧ (∀ (α : Type) (render : α → String) (t : List α) (buf : String),
        run_print_ip_tuple render t buf
          = buf ++ print_ip_tuple render t ++ "\n") := by
  refine ⟨?_, fun _ _ => rfl, ?_, ?_⟩
  · intro w v buf
    by_cases h1 : w = 1
    · subst h1
      simp [run_print_ip_integral, print_ip_integral, String.append_assoc]
    · simp only [run_print_ip_integral, print_ip_integral, if_neg h1]
      rw [run_bytes_loop_eq]
      simp [String.append_assoc]
  · intro α render l buf
    cases h : l.getLast? with
    | none =>
      simp [run_print_ip_container, print_ip_container, h, Except.map]
    | some b =>
      simp only [run_print_ip_container, print_ip_container, h, Except.map]
      rw [run_container_loop_eq]
      simp [String.append_assoc]
  · intro α render t buf
    simp only [run_print_ip_tuple, print_ip_tuple, print_tuple]
    rw [run_tuple_fold_eq]
